import Mathlib

/-!
Verification development for the whitenoise-cli signal engine
(src/src/main.rs).  The Rust code is embedded shallowly: machine floats
are modelled as exact rationals where the code only branches and does
field arithmetic, and as reals where transcendental functions (sin, cos,
tanh) appear; stateful methods become functions returning the new state.
-/

/-- Sound style selector (main.rs lines 36-62). -/
inductive SoundStyle where
  | Vanilla
  | Rain
deriving DecidableEq, Repr

/-- SoundStyle::next (main.rs lines 50-55). -/
def SoundStyle.next : SoundStyle → SoundStyle
  | .Vanilla => .Rain
  | .Rain => .Vanilla

/-- AudioSettings (main.rs lines 64-70).  The shared parameter store. -/
structure AudioSettings where
  volume : ℚ
  frequency_bands : List ℚ
  perceptual_normalization : Bool
  sound_style : SoundStyle
deriving DecidableEq, Repr

/-- AudioSettings::default (main.rs lines 72-81). -/
def AudioSettings.defaultSettings : AudioSettings :=
  { volume := 0
    frequency_bands := [0.5, 0.5, 0.5, 0.5, 0.5, 0.5, 0.5, 0.5]
    perceptual_normalization := false
    sound_style := .Vanilla }

/-- FrequencyBand (main.rs lines 83-87). -/
structure FrequencyBand where
  name : String
  min_freq : ℚ
  max_freq : ℚ
deriving DecidableEq, Repr

/-- FREQUENCY_BANDS table (main.rs lines 89-98). -/
def FREQUENCY_BANDS : List FrequencyBand :=
  [ { name := "Sub Bass", min_freq := 20, max_freq := 60 }
  , { name := "Bass", min_freq := 60, max_freq := 250 }
  , { name := "Low Mid", min_freq := 250, max_freq := 500 }
  , { name := "Mid", min_freq := 500, max_freq := 2000 }
  , { name := "Hi Mid", min_freq := 2000, max_freq := 4000 }
  , { name := "Presence", min_freq := 4000, max_freq := 6000 }
  , { name := "Brilliance", min_freq := 6000, max_freq := 12000 }
  , { name := "Air", min_freq := 12000, max_freq := 20000 } ]

/-- The three biquad construction recipes, recorded symbolically (which
constructor is called with which arguments). -/
inductive FilterKind where
  | lowpass (frequency : ℚ)
  | highpass (frequency : ℚ)
  | bandpass (frequency : ℚ) (q : ℚ)
deriving DecidableEq, Repr

/-- Filter-kind selection in FrequencyBandGenerator::new (main.rs lines
315-326); NoiseGenerator::new builds rain_filters with the identical
policy (main.rs lines 386-398). -/
def bandFilterKind (band : FrequencyBand) : FilterKind :=
  if band.min_freq ≤ 60 then
    .lowpass band.max_freq
  else if band.max_freq ≥ 16000 then
    .highpass band.min_freq
  else
    .bandpass ((band.min_freq + band.max_freq) / 2) 1.5

/-- Modelled from the spec: the band-to-filter-kind policy as the spec
words it ("bands whose upper edge ≤ 60Hz use lowpass(max_freq); bands
whose lower edge ≥ 16000Hz use highpass(min_freq); all others use
bandpass at the band's midpoint frequency with Q = 1.5"), for
comparison with `bandFilterKind` from the source. -/
def specBandFilterKind (band : FrequencyBand) : FilterKind :=
  if band.max_freq ≤ 60 then
    .lowpass band.max_freq
  else if band.min_freq ≥ 16000 then
    .highpass band.min_freq
  else
    .bandpass ((band.min_freq + band.max_freq) / 2) 1.5

/-- BiquadFilter state (main.rs lines 101-107): normalized coefficients
plus the running delay line. -/
structure BiquadFilter where
  b0 : ℝ
  b1 : ℝ
  b2 : ℝ
  a1 : ℝ
  a2 : ℝ
  x1 : ℝ
  x2 : ℝ
  y1 : ℝ
  y2 : ℝ

/-- BiquadFilter::process (main.rs lines 182-193): direct-form-I step,
returning the output together with the updated state. -/
def BiquadFilter.process (f : BiquadFilter) (input : ℝ) : ℝ × BiquadFilter :=
  let output := f.b0 * input + f.b1 * f.x1 + f.b2 * f.x2
    - f.a1 * f.y1 - f.a2 * f.y2
  (output,
    { f with x2 := f.x1, x1 := input, y2 := f.y1, y1 := output })

/-- Soft limiter at the tail of NoiseGenerator::generate_sample
(main.rs lines 473-481). -/
noncomputable def softLimit (x : ℝ) : ℝ :=
  if x > 0.95 then 0.95 + 0.05 * Real.tanh (x - 0.95)
  else if x < -0.95 then -0.95 + 0.05 * Real.tanh (x + 0.95)
  else x

lemma tanh_lt_one (x : ℝ) : Real.tanh x < 1 := by
  rw [Real.tanh_eq_sinh_div_cosh]
  exact (div_lt_one (Real.cosh_pos x)).mpr (Real.sinh_lt_cosh x)

lemma abs_tanh_lt_one (x : ℝ) : |Real.tanh x| < 1 := by
  rw [abs_lt]
  refine ⟨?_, tanh_lt_one x⟩
  have h := tanh_lt_one (-x)
  rw [Real.tanh_neg] at h
  linarith

lemma abs_softLimit_lt_one (x : ℝ) : |softLimit x| < 1 := by
  unfold softLimit
  rcases lt_or_le (0.95 : ℝ) x with h1 | h1
  · rw [if_pos h1, abs_lt]
    have ht := abs_tanh_lt_one (x - 0.95)
    rw [abs_lt] at ht
    constructor <;> nlinarith [ht.1, ht.2]
  · rw [if_neg (not_lt.mpr h1)]
    rcases lt_or_le x (-0.95 : ℝ) with h2 | h2
    · rw [if_pos h2, abs_lt]
      have ht := abs_tanh_lt_one (x + 0.95)
      rw [abs_lt] at ht
      constructor <;> nlinarith [ht.1, ht.2]
    · rw [if_neg (not_lt.mpr h2), abs_lt]
      constructor <;> nlinarith

/-- RainSamplePlayer (main.rs lines 200-206): decoded sample buffer plus
resampling/crossfade playback state. -/
structure RainSamplePlayer where
  samples : List ℝ
  source_sample_rate : ℕ
  target_sample_rate : ℚ
  resample_position : ℚ
  crossfade_samples : ℕ

/-- RainSamplePlayer::new, 16-bit branch (main.rs lines 209-246): the
embedded WAV file's PCM samples are decoded and normalized by 1/32768;
the crossfade length is two seconds of source-rate samples.  The decoded
integer samples of the bundled recording are a parameter, since the
asset bytes live outside the source text. -/
def RainSamplePlayer.new16 (wavSamples : List ℤ) (wav_sample_rate : ℕ)
    (target_sample_rate : ℚ) : RainSamplePlayer :=
  { samples := wavSamples.map (fun s => (((s : ℚ) / 32768 : ℚ) : ℝ))
    source_sample_rate := wav_sample_rate
    target_sample_rate := target_sample_rate
    resample_position := 0
    crossfade_samples := wav_sample_rate * 2 }

/-- RainSamplePlayer::get_sample_interpolated (main.rs lines 248-261). -/
def RainSamplePlayer.get_sample_interpolated (p : RainSamplePlayer)
    (pos : ℚ) : ℝ :=
  if p.samples.length = 0 then 0
  else
    let idx := (⌊pos⌋).toNat % p.samples.length
    let frac : ℚ := pos - ⌊pos⌋
    let sample1 := p.samples.getD idx 0
    let sample2 := p.samples.getD ((idx + 1) % p.samples.length) 0
    sample1 + (sample2 - sample1) * (frac : ℝ)

/-- Value emitted by RainSamplePlayer::generate_sample (main.rs lines
263-292): crossfade blend near the loop end, plain interpolated lookup
otherwise. -/
noncomputable def RainSamplePlayer.currentValue (p : RainSamplePlayer) : ℝ :=
  if p.samples.length = 0 then 0
  else
    let fade_start := p.samples.length - p.crossfade_samples
    let current_idx := (⌊p.resample_position⌋).toNat
    if current_idx ≥ fade_start then
      let fade_progress : ℚ :=
        ((current_idx - fade_start : ℕ) : ℚ) / (p.crossfade_samples : ℚ)
      let fade_out := Real.cos (Real.pi * (fade_progress : ℝ) / 2)
      let fade_in := Real.sin (Real.pi * (fade_progress : ℝ) / 2)
      let end_sample := p.get_sample_interpolated p.resample_position
      let begin_pos : ℚ := ((current_idx - fade_start : ℕ) : ℚ)
        + (p.resample_position - (current_idx : ℚ))
      let begin_sample := p.get_sample_interpolated begin_pos
      end_sample * fade_out + begin_sample * fade_in
    else
      p.get_sample_interpolated p.resample_position

/-- Position update of RainSamplePlayer::generate_sample (main.rs lines
294-302): advance by the resampling ratio and wrap past the loop end. -/
def RainSamplePlayer.advance (p : RainSamplePlayer) : RainSamplePlayer :=
  if p.samples.length = 0 then p
  else
    let fade_start := p.samples.length - p.crossfade_samples
    let ratio : ℚ := (p.source_sample_rate : ℚ) / p.target_sample_rate
    let pos : ℚ := p.resample_position + ratio
    let pos' : ℚ :=
      if pos ≥ (p.samples.length : ℚ) then pos - (fade_start : ℚ) else pos
    { p with resample_position := pos' }

/-- RainSamplePlayer::generate_sample (main.rs lines 263-306): the empty
buffer short-circuits to 0 leaving the state untouched; otherwise the
current value is emitted and the position advances. -/
noncomputable def RainSamplePlayer.generate_sample (p : RainSamplePlayer) :
    ℝ × RainSamplePlayer :=
  if p.samples.length = 0 then (0, p) else (p.currentValue, p.advance)

/-- FrequencyBandGenerator (main.rs lines 308-311): the RNG is modelled
as the stream of pending uniform draws in [0,1). -/
structure FrequencyBandGenerator where
  rng : List ℚ
  filter : BiquadFilter

/-- One uniform draw from the modelled RNG stream. -/
def drawRand : List ℚ → ℚ × List ℚ
  | [] => (0, [])
  | u :: rest => (u, rest)

/-- Fletcher-Munson compensation table (main.rs lines 346-358; repeated
verbatim in the Rain branch, lines 440-452). -/
def perceptualGain (enabled : Bool) (center_freq : ℚ) : ℚ :=
  if enabled then
    if center_freq < 100 then 2.8
    else if center_freq < 500 then 2
    else if center_freq < 1000 then 1.3
    else if center_freq < 4000 then 1
    else if center_freq < 6000 then 0.8
    else if center_freq < 10000 then 1.4
    else 2.2
  else 1

/-- FrequencyBandGenerator::generate_sample (main.rs lines 334-362),
used only in Vanilla mode: gate on gain, draw noise, filter, apply
perceptual gain and the 0.8 headroom factor. -/
def FrequencyBandGenerator.generate_sample (b : FrequencyBandGenerator)
    (gain center_freq : ℚ) (perceptual_normalization : Bool) :
    ℝ × FrequencyBandGenerator :=
  if gain ≤ 0.001 then (0, b)
  else
    let draw := drawRand b.rng
    let base_audio : ℝ := ((draw.1 : ℝ) - 0.5) * 2
    let step := b.filter.process base_audio
    let pg := perceptualGain perceptual_normalization center_freq
    (step.1 * (gain : ℝ) * (pg : ℝ) * 0.8,
      { rng := draw.2, filter := step.2 })

/-- NoiseGenerator (main.rs lines 365-371), minus the shared settings
handle, which the embedding passes explicitly per call. -/
structure NoiseGenerator where
  bands : List FrequencyBandGenerator
  center_frequencies : List ℚ
  rain_player : RainSamplePlayer
  rain_filters : List BiquadFilter

/-- The Rain-branch EQ loop of NoiseGenerator::generate_sample (main.rs
lines 427-456): every filter processes the rain sample; a band whose
gain is at most 0.001 discards its filtered output (state still
updates), the rest contribute filtered * gain * perceptual * 0.8. -/
def rainBandsLoop : List BiquadFilter → List ℚ → List ℚ → Bool → ℝ →
    ℝ × List BiquadFilter
  | [], _, _, _, _ => (0, [])
  | f :: fs, gains, cfs, perceptual, rain_sample =>
    let gain := gains.headD 0
    let step := f.process rain_sample
    let rest := rainBandsLoop fs gains.tail cfs.tail perceptual rain_sample
    if gain ≤ 0.001 then
      (rest.1, step.2 :: rest.2)
    else
      let pg := perceptualGain perceptual (cfs.headD 0)
      (step.1 * (gain : ℝ) * (pg : ℝ) * 0.8 + rest.1, step.2 :: rest.2)

/-- The Vanilla-branch summation loop of NoiseGenerator::generate_sample
(main.rs lines 458-467). -/
def vanillaBandsLoop : List FrequencyBandGenerator → List ℚ → List ℚ →
    Bool → ℝ × List FrequencyBandGenerator
  | [], _, _, _ => (0, [])
  | b :: bs, gains, cfs, perceptual =>
    let step := b.generate_sample (gains.headD 0) (cfs.headD 0) perceptual
    let rest := vanillaBandsLoop bs gains.tail cfs.tail perceptual
    (step.1 + rest.1, step.2 :: rest.2)

/-- NoiseGenerator::generate_sample (main.rs lines 409-481): snapshot
the settings, fast-path on zero volume, dispatch on style, scale by
volume, soft-limit. -/
noncomputable def NoiseGenerator.generate_sample (g : NoiseGenerator)
    (settings : AudioSettings) : ℝ × NoiseGenerator :=
  if settings.volume = 0 then (0, g)
  else
    match settings.sound_style with
    | .Rain =>
      let rainStep := g.rain_player.generate_sample
      let eq := rainBandsLoop g.rain_filters settings.frequency_bands
        g.center_frequencies settings.perceptual_normalization rainStep.1
      (softLimit (eq.1 * (settings.volume : ℝ)),
        { g with rain_player := rainStep.2, rain_filters := eq.2 })
    | .Vanilla =>
      let sum := vanillaBandsLoop g.bands settings.frequency_bands
        g.center_frequencies settings.perceptual_normalization
      (softLimit (sum.1 * (settings.volume : ℝ)), { g with bands := sum.2 })

/-- N successive engine ticks under fixed settings. -/
noncomputable def NoiseGenerator.tickN (g : NoiseGenerator)
    (settings : AudioSettings) : ℕ → NoiseGenerator
  | 0 => g
  | n + 1 => ((g.generate_sample settings).2).tickN settings n

/-- The settings-lock acquisition at the top of generate_sample
(main.rs line 410): `self.settings.lock().unwrap()`.  `none` models a
poisoned mutex, on which `.unwrap()` panics — modelled as no result. -/
noncomputable def NoiseGenerator.generate_sample_locked (g : NoiseGenerator)
    (lockResult : Option AudioSettings) : Option (ℝ × NoiseGenerator) :=
  match lockResult with
  | none => none
  | some s => some (g.generate_sample s)

/-- Sequentially fill an output buffer, one generate_sample per slot
(main.rs lines 760-762). -/
noncomputable def fillBuffer (g : NoiseGenerator) (settings : AudioSettings) :
    List ℝ → List ℝ × NoiseGenerator
  | [] => ([], g)
  | _ :: rest =>
    let step := g.generate_sample settings
    let tail := fillBuffer step.2 settings rest
    (step.1 :: tail.1, tail.2)

/-- The cpal output callback (main.rs lines 751-763): a cleared running
flag zero-fills the buffer; a failed try-lock on the generator mutex
(`if let Ok`) leaves the buffer exactly as it was; otherwise every slot
is filled from generate_sample. -/
noncomputable def audioCallback (running : Bool)
    (generator : Option NoiseGenerator) (settings : AudioSettings)
    (data : List ℝ) : List ℝ × Option NoiseGenerator :=
  if !running then (data.map (fun _ => 0), generator)
  else
    match generator with
    | none => (data, none)
    | some g =>
      let filled := fillBuffer g settings data
      (filled.1, some filled.2)

/-- load_settings (main.rs lines 693-702).  The argument is the parse
result of the persisted file (`none`: missing or malformed, falling back
to defaults); a successfully parsed value has its volume forced to 0.
The TOML encode/decode pair itself is out of core scope (spec section 6)
and is modelled as faithful. -/
def load_settings (stored : Option AudioSettings) : AudioSettings :=
  match stored with
  | some s => { s with volume := 0 }
  | none => AudioSettings.defaultSettings

/-- save_settings (main.rs lines 704-709): persists the settings value;
the stored file parses back to the same value. -/
def save_settings (settings : AudioSettings) : Option AudioSettings :=
  some settings

/-- Keys the interactive UI reacts to (main.rs lines 595-645). -/
inductive UIKey where
  | up
  | down
  | left
  | right
  | keyN
  | keyS
  | quit
  | other
deriving DecidableEq, Repr

/-- InteractiveUI state relevant to key handling (main.rs lines
484-488): the shared settings and the selected slider. -/
structure InteractiveUI where
  settings : AudioSettings
  current_slider : ℕ
deriving DecidableEq, Repr

/-- InteractiveUI::handle_key (main.rs lines 595-645); the returned Bool
is the exit flag.  Left/Right clamp with max 0 / min 1 exactly as the
source's `.max(0.0)` / `.min(1.0)`. -/
def InteractiveUI.handle_key (ui : InteractiveUI) (key : UIKey) :
    InteractiveUI × Bool :=
  match key with
  | .up =>
    ({ ui with current_slider :=
        if ui.current_slider > 0 then ui.current_slider - 1
        else ui.current_slider }, false)
  | .down =>
    ({ ui with current_slider :=
        if ui.current_slider < 8 then ui.current_slider + 1
        else ui.current_slider }, false)
  | .left =>
    if ui.current_slider = 0 then
      ({ ui with settings := { ui.settings with
          volume := max (ui.settings.volume - 0.05) 0 } }, false)
    else
      let band_index := ui.current_slider - 1
      ({ ui with settings := { ui.settings with
          frequency_bands := ui.settings.frequency_bands.set band_index
            (max (ui.settings.frequency_bands.getD band_index 0 - 0.05) 0) } },
        false)
  | .right =>
    if ui.current_slider = 0 then
      ({ ui with settings := { ui.settings with
          volume := min (ui.settings.volume + 0.05) 1 } }, false)
    else
      let band_index := ui.current_slider - 1
      ({ ui with settings := { ui.settings with
          frequency_bands := ui.settings.frequency_bands.set band_index
            (min (ui.settings.frequency_bands.getD band_index 0 + 0.05) 1) } },
        false)
  | .keyN =>
    ({ ui with settings := { ui.settings with
        perceptual_normalization := !ui.settings.perceptual_normalization } },
      false)
  | .keyS =>
    ({ ui with settings := { ui.settings with
        sound_style := ui.settings.sound_style.next } }, false)
  | .quit => (ui, true)
  | .other => (ui, false)

/-- All float fields of a settings value finite and in [0,1] (spec
section 3 invariant; floats are exact rationals in this embedding, so
finiteness is automatic). -/
def AudioSettings.inRange (s : AudioSettings) : Prop :=
  0 ≤ s.volume ∧ s.volume ≤ 1 ∧
    ∀ gain ∈ s.frequency_bands, 0 ≤ gain ∧ gain ≤ 1

instance : DecidablePred AudioSettings.inRange := fun s => by
  unfold AudioSettings.inRange
  infer_instance

/-! Concrete fixtures used by witnesses and counterexamples. -/

/-- A biquad state passing its input straight through (b0 = 1, all other
coefficients and the delay line zero). -/
def idFilter : BiquadFilter :=
  { b0 := 1, b1 := 0, b2 := 0, a1 := 0, a2 := 0
    x1 := 0, x2 := 0, y1 := 0, y2 := 0 }

/-- A small rain player: three decoded samples of value 1, crossfade of
two source-rate samples, playback position at the start. -/
def testRainPlayer : RainSamplePlayer :=
  { samples := [1, 1, 1], source_sample_rate := 1, target_sample_rate := 1
    resample_position := 0, crossfade_samples := 2 }

/-- A concrete engine state: eight vanilla band generators and eight
rain EQ filters, all with pass-through biquad states, the center
frequencies the source computes from FREQUENCY_BANDS. -/
def testBand : FrequencyBandGenerator := { rng := [3/4], filter := idFilter }

def testGenerator : NoiseGenerator :=
  { bands := [testBand, testBand, testBand, testBand,
              testBand, testBand, testBand, testBand]
    center_frequencies := [40, 155, 375, 1250, 3000, 5000, 9000, 16000]
    rain_player := testRainPlayer
    rain_filters := [idFilter, idFilter, idFilter, idFilter,
                     idFilter, idFilter, idFilter, idFilter] }

/-- Rain-style settings with the Mid band (index 3) disabled and every
other band at full gain. -/
def rainSettingsMidOff : AudioSettings :=
  { volume := 1/10, frequency_bands := [1, 1, 1, 0, 1, 1, 1, 1]
    perceptual_normalization := false, sound_style := .Rain }

/-- Rain-style settings, full volume, all gains 1. -/
def rainSettingsA : AudioSettings :=
  { volume := 1, frequency_bands := [1, 1, 1, 1, 1, 1, 1, 1]
    perceptual_normalization := false, sound_style := .Rain }

/-- Rain-style settings with different volume, gains and normalization
flag than `rainSettingsA`. -/
def rainSettingsB : AudioSettings :=
  { volume := 1/2, frequency_bands := [0, 0, 0, 0, 0, 0, 0, 0]
    perceptual_normalization := true, sound_style := .Rain }

/-- A persisted settings value whose first band gain is 2, outside
[0,1]. -/
def badStoredSettings : AudioSettings :=
  { volume := 1/2, frequency_bands := [2, 1/2, 1/2, 1/2, 1/2, 1/2, 1/2, 1/2]
    perceptual_normalization := false, sound_style := .Vanilla }

/-- getD either returns a list element or the default. -/
lemma getD_mem_or_default {α : Type} (l : List α) (n : ℕ) (d : α) :
    l.getD n d ∈ l ∨ l.getD n d = d := by
  induction l generalizing n with
  | nil => right; rfl
  | cons a t ih =>
    cases n with
    | zero => left; simp [List.getD]
    | succ m =>
      have : (a :: t).getD (m + 1) d = t.getD m d := by simp [List.getD]
      rw [this]
      rcases ih m with h | h
      · exact Or.inl (List.mem_cons_of_mem _ h)
      · exact Or.inr h

/-- Claim C3 counterexample: on the Bass band (60-250 Hz, table index 1)
the source picks lowpass(250) because the lower edge equals 60, while
the spec's policy (upper edge ≤ 60) would pick a bandpass at 155 Hz; on
the Air band (12000-20000 Hz, index 7) the source picks highpass(12000)
because the upper edge is ≥ 16000, while the spec's policy (lower edge ≥
16000) would pick a bandpass at 16000 Hz. -/
theorem C3_counterexample :
    FrequencyBand.mk "Bass" 60 250 ∈ FREQUENCY_BANDS ∧
    bandFilterKind (FrequencyBand.mk "Bass" 60 250) = .lowpass 250 ∧
    specBandFilterKind (FrequencyBand.mk "Bass" 60 250) = .bandpass 155 1.5 ∧
    FrequencyBand.mk "Air" 12000 20000 ∈ FREQUENCY_BANDS ∧
    bandFilterKind (FrequencyBand.mk "Air" 12000 20000) = .highpass 12000 ∧
    specBandFilterKind (FrequencyBand.mk "Air" 12000 20000) = .bandpass 16000 1.5 := by
  refine ⟨by simp [FREQUENCY_BANDS], ?_, ?_, by simp [FREQUENCY_BANDS], ?_, ?_⟩ <;>
    norm_num [bandFilterKind, specBandFilterKind]

/-- Claim C3 (amended): the filter kind is lowpass(max_freq) when the
band's LOWER edge is ≤ 60 Hz (Sub Bass and Bass), highpass(min_freq)
when the band's UPPER edge is ≥ 16000 Hz (Air), and otherwise bandpass
at the band's midpoint with Q = 1.5 — enumerated over the fixed 8-band
table. -/
theorem C3_filter_kinds :
    FREQUENCY_BANDS.map bandFilterKind =
      [ .lowpass 60, .lowpass 250, .bandpass 375 1.5, .bandpass 1250 1.5
      , .bandpass 3000 1.5, .bandpass 5000 1.5, .bandpass 9000 1.5
      , .highpass 12000 ] := by
  norm_num [FREQUENCY_BANDS, bandFilterKind]

/-- Claim C4 counterexample: a persisted configuration with a band gain
of 2 loads with that gain intact (only the volume is reset), so the
loaded Parameters value violates the [0,1] invariant. -/
theorem C4_counterexample :
    ¬ (load_settings (some badStoredSettings)).inRange ∧
    (load_settings (some badStoredSettings)).frequency_bands.getD 0 0 = 2 ∧
    (load_settings (some badStoredSettings)).volume = 0 := by
  refine ⟨?_, by norm_num [load_settings, badStoredSettings],
    by norm_num [load_settings, badStoredSettings]⟩
  intro h
  have h2 := (h.2.2 2 (by simp [load_settings, badStoredSettings])).2
  norm_num at h2

/-- Claim C4 (amended): the default settings satisfy the [0,1]
invariant, loading always forces volume to 0, and every UI key action
preserves the invariant; loading, however, does not clamp the persisted
band gains (see the counterexample), so the invariant holds at every
point only for runs whose persisted gains were already in range. -/
theorem C4_invariant_preserved :
    AudioSettings.defaultSettings.inRange ∧
    (∀ stored : Option AudioSettings, (load_settings stored).volume = 0) ∧
    (∀ (ui : InteractiveUI) (key : UIKey),
      ui.settings.inRange → ((ui.handle_key key).1).settings.inRange) := by
  refine ⟨by unfold AudioSettings.inRange AudioSettings.defaultSettings; norm_num, ?_, ?_⟩
  · intro stored
    cases stored <;> rfl
  · intro ui key h
    unfold AudioSettings.inRange at h ⊢
    obtain ⟨hv0, hv1, hg⟩ := h
    have hb := getD_mem_or_default ui.settings.frequency_bands
      (ui.current_slider - 1) 0
    have hd0 : 0 ≤ ui.settings.frequency_bands.getD (ui.current_slider - 1) 0 := by
      rcases hb with hmem | he
      · exact (hg _ hmem).1
      · rw [he]
    have hd1 : ui.settings.frequency_bands.getD (ui.current_slider - 1) 0 ≤ 1 := by
      rcases hb with hmem | he
      · exact (hg _ hmem).2
      · rw [he]; norm_num
    cases key with
    | up => exact ⟨hv0, hv1, hg⟩
    | down => exact ⟨hv0, hv1, hg⟩
    | keyN => exact ⟨hv0, hv1, hg⟩
    | keyS => exact ⟨hv0, hv1, hg⟩
    | quit => exact ⟨hv0, hv1, hg⟩
    | other => exact ⟨hv0, hv1, hg⟩
    | left =>
      by_cases hs : ui.current_slider = 0
      · simp only [InteractiveUI.handle_key, if_pos hs]
        exact ⟨le_max_right _ _, max_le (by linarith) (by norm_num), hg⟩
      · simp only [InteractiveUI.handle_key, if_neg hs]
        refine ⟨hv0, hv1, ?_⟩
        intro gain hmem
        rcases List.mem_or_eq_of_mem_set hmem with hmem' | rfl
        · exact hg gain hmem'
        · exact ⟨le_max_right _ _, max_le (by linarith) (by norm_num)⟩
    | right =>
      by_cases hs : ui.current_slider = 0
      · simp only [InteractiveUI.handle_key, if_pos hs]
        exact ⟨le_min (by linarith) (by norm_num), min_le_right _ _, hg⟩
      · simp only [InteractiveUI.handle_key, if_neg hs]
        refine ⟨hv0, hv1, ?_⟩
        intro gain hmem
        rcases List.mem_or_eq_of_mem_set hmem with hmem' | rfl
        · exact hg gain hmem'
        · exact ⟨le_min (by linarith) (by norm_num), min_le_right _ _⟩

/-- Claim C4 witness: the invariant holds for the defaults and is kept
by a concrete key action. -/
theorem C4_witness :
    AudioSettings.defaultSettings.inRange ∧
    (((InteractiveUI.mk AudioSettings.defaultSettings 0).handle_key .right).1).settings.inRange := by
  refine ⟨C4_invariant_preserved.1, ?_⟩
  exact C4_invariant_preserved.2.2 (InteractiveUI.mk AudioSettings.defaultSettings 0)
    .right C4_invariant_preserved.1

/-- Claim C7: with style = Noise (the only mode that calls
FrequencyBandGenerator::generate_sample), a gain of at most 0.001
returns exactly 0 with the whole band state — RNG stream and biquad
delay line — unchanged. -/
theorem C7_low_gain_skips_band (b : FrequencyBandGenerator)
    (gain center_freq : ℚ) (perceptual : Bool) (h : gain ≤ 0.001) :
    b.generate_sample gain center_freq perceptual = (0, b) := by
  unfold FrequencyBandGenerator.generate_sample
  rw [if_pos h]

/-- Claim C7 witness: a concrete band state with one pending draw and a
gain of 1/2000 returns 0 and is unchanged. -/
theorem C7_witness :
    (1 : ℚ)/2000 ≤ 0.001 ∧
    (FrequencyBandGenerator.mk [3/4] idFilter).generate_sample (1/2000) 40 false
      = (0, FrequencyBandGenerator.mk [3/4] idFilter) :=
  ⟨by norm_num, C7_low_gain_skips_band _ _ _ _ (by norm_num)⟩

/-- Claim C8: persisting a settings value and reloading it reproduces
the band gains, the normalization flag and the sound style, while the
volume is always 0 after loading. -/
theorem C8_round_trip (s : AudioSettings) :
    (load_settings (save_settings s)).frequency_bands = s.frequency_bands ∧
    (load_settings (save_settings s)).perceptual_normalization
      = s.perceptual_normalization ∧
    (load_settings (save_settings s)).sound_style = s.sound_style ∧
    (load_settings (save_settings s)).volume = 0 :=
  ⟨rfl, rfl, rfl, rfl⟩

/-- Claim C5: the engine's per-sample output always has magnitude below
1 (in particular it lies in [-1,1] and, reals being exact here, is
finite); the limiter passes |x| ≤ 0.95 through unchanged and maps
|x| > 0.95 to sign(x) * (0.95 + 0.05 * tanh(|x| - 0.95)), which stays
strictly below magnitude 1. -/
theorem C5_output_bounded (g : NoiseGenerator) (s : AudioSettings) (x : ℝ) :
    |(g.generate_sample s).1| < 1 ∧
    (|x| ≤ 0.95 → softLimit x = x) ∧
    (0.95 < |x| →
      softLimit x = Real.sign x * (0.95 + 0.05 * Real.tanh (|x| - 0.95)) ∧
      |softLimit x| < 1) := by
  refine ⟨?_, ?_, ?_⟩
  · unfold NoiseGenerator.generate_sample
    by_cases hv : s.volume = 0
    · rw [if_pos hv]
      norm_num
    · rw [if_neg hv]
      cases hstyle : s.sound_style with
      | Vanilla => simpa using abs_softLimit_lt_one _
      | Rain => simpa using abs_softLimit_lt_one _
  · intro h
    rw [abs_le] at h
    unfold softLimit
    rw [if_neg (not_lt.mpr h.2), if_neg (not_lt.mpr h.1)]
  · intro h
    refine ⟨?_, abs_softLimit_lt_one x⟩
    rcases lt_abs.mp h with h1 | h1
    · have hs : Real.sign x = 1 := Real.sign_of_pos (by linarith)
      have ha : |x| = x := abs_of_pos (by linarith)
      unfold softLimit
      rw [if_pos h1, hs, ha, one_mul]
    · have hxneg : x < -0.95 := by linarith
      have hs : Real.sign x = -1 := Real.sign_of_neg (by linarith)
      have ha : |x| = -x := abs_of_neg (by linarith)
      unfold softLimit
      rw [if_neg (by linarith), if_pos hxneg, hs, ha]
      have htanh : Real.tanh (-x - 0.95) = -Real.tanh (x + 0.95) := by
        rw [show (-x - 0.95 : ℝ) = -(x + 0.95) by ring, Real.tanh_neg]
      rw [htanh]
      ring

/-- Claim C5 witness: bounded output at a concrete engine state, exact
passthrough at 1/2, and the limiter formula at 2. -/
theorem C5_witness :
    |(testGenerator.generate_sample rainSettingsA).1| < 1 ∧
    softLimit (1/2) = 1/2 ∧
    softLimit 2 = Real.sign 2 * (0.95 + 0.05 * Real.tanh (|(2:ℝ)| - 0.95)) := by
  refine ⟨(C5_output_bounded testGenerator rainSettingsA 0).1, ?_, ?_⟩
  · exact (C5_output_bounded testGenerator rainSettingsA (1/2)).2.1
      (by rw [abs_of_pos (by norm_num : (0:ℝ) < 1/2)]; norm_num)
  · exact ((C5_output_bounded testGenerator rainSettingsA 2).2.2
      (by rw [abs_of_pos (by norm_num : (0:ℝ) < 2)]; norm_num)).1

/-- Claim C6: with volume 0 a tick returns exactly 0 and leaves the
whole generator — every RNG stream, every filter delay line, the rain
player position — untouched, and so does any number N of ticks. -/
theorem C6_zero_volume (g : NoiseGenerator) (s : AudioSettings)
    (h : s.volume = 0) :
    g.generate_sample s = (0, g) ∧ ∀ N : ℕ, g.tickN s N = g := by
  have hstep : ∀ g' : NoiseGenerator, g'.generate_sample s = (0, g') := by
    intro g'
    unfold NoiseGenerator.generate_sample
    rw [if_pos h]
  refine ⟨hstep g, ?_⟩
  intro N
  induction N generalizing g with
  | zero => rfl
  | succ n ih =>
    show ((g.generate_sample s).2).tickN s n = g
    rw [hstep g]
    exact ih g

/-- Claim C6 witness: the default settings have volume 0; one tick and
five ticks of a concrete engine leave it unchanged. -/
theorem C6_witness :
    testGenerator.generate_sample AudioSettings.defaultSettings
      = (0, testGenerator) ∧
    testGenerator.tickN AudioSettings.defaultSettings 5 = testGenerator := by
  have h := C6_zero_volume testGenerator AudioSettings.defaultSettings rfl
  exact ⟨h.1, h.2 5⟩

/-- Claim C9 counterexample: a poisoned parameters lock makes
generate_sample panic (`lock().unwrap()`, modelled as no result) instead
of emitting 0.0; and when the callback's try-lock on the generator fails
the buffer is left with its previous contents (here 7/10) rather than
silence. -/
theorem C9_counterexample :
    NoiseGenerator.generate_sample_locked testGenerator none = none ∧
    audioCallback true none AudioSettings.defaultSettings [7/10]
      = ([7/10], none) ∧
    ((7:ℝ)/10 ≠ 0) :=
  ⟨rfl, rfl, by norm_num⟩

lemma fillBuffer_length (data : List ℝ) (g : NoiseGenerator)
    (s : AudioSettings) : (fillBuffer g s data).1.length = data.length := by
  induction data generalizing g with
  | nil => rfl
  | cons a rest ih =>
    show ((g.generate_sample s).1
      :: (fillBuffer (g.generate_sample s).2 s rest).1).length = rest.length + 1
    simp [ih]

/-- Claim C9 (amended): once the parameters lock is acquired, tick
always yields a result (no other failure path); a cleared running flag
zero-fills the block; a failed generator try-lock skips the block with
the buffer left unchanged (not silenced); and a successful lock fills
every slot of the block. -/
theorem C9_lock_behavior :
    (∀ (g : NoiseGenerator) (s : AudioSettings),
      g.generate_sample_locked (some s) = some (g.generate_sample s)) ∧
    (∀ (gl : Option NoiseGenerator) (s : AudioSettings) (data : List ℝ),
      audioCallback false gl s data = (data.map (fun _ => 0), gl)) ∧
    (∀ (s : AudioSettings) (data : List ℝ),
      audioCallback true none s data = (data, none)) ∧
    (∀ (g : NoiseGenerator) (s : AudioSettings) (data : List ℝ),
      ((audioCallback true (some g) s data).1).length = data.length) := by
  refine ⟨fun g s => rfl, fun gl s data => rfl, fun s data => rfl, ?_⟩
  intro g s data
  exact fillBuffer_length data g s

lemma rainBandsLoop_state (fs : List BiquadFilter) (gains cfs : List ℚ)
    (p : Bool) (rain : ℝ) :
    (rainBandsLoop fs gains cfs p rain).2
      = fs.map (fun f => (f.process rain).2) := by
  induction fs generalizing gains cfs with
  | nil => rfl
  | cons f fs ih =>
    unfold rainBandsLoop
    by_cases hgain : gains.headD 0 ≤ 0.001
    · simp only [if_pos hgain, List.map_cons]
      rw [ih]
    · simp only [if_neg hgain, List.map_cons]
      rw [ih]

lemma rainNextState (g : NoiseGenerator) (s : AudioSettings)
    (hstyle : s.sound_style = .Rain) (hv : s.volume ≠ 0) :
    (g.generate_sample s).2 =
      { g with
        rain_player := (g.rain_player.generate_sample).2
        rain_filters := g.rain_filters.map
          (fun f => (f.process (g.rain_player.generate_sample).1).2) } := by
  unfold NoiseGenerator.generate_sample
  rw [if_neg hv, hstyle]
  simp only []
  rw [rainBandsLoop_state]

/-- Claim C10: in Rain style every band filter — including those whose
gain is at most 0.001 — is stepped exactly once per tick on the same
rain input sample, so after any number N of ticks with nonzero volume
the entire generator state (all 8 rain filter delay lines, the rain
player position, the untouched vanilla bands) is independent of the gain
values (and of volume and the normalization flag). -/
theorem C10_rain_state_gain_independent :
    (∀ (fs : List BiquadFilter) (gains cfs : List ℚ) (p : Bool) (rain : ℝ),
      (rainBandsLoop fs gains cfs p rain).2
        = fs.map (fun f => (f.process rain).2)) ∧
    (∀ (g : NoiseGenerator) (s s' : AudioSettings) (N : ℕ),
      s.sound_style = .Rain → s'.sound_style = .Rain →
      s.volume ≠ 0 → s'.volume ≠ 0 →
      g.tickN s N = g.tickN s' N) := by
  refine ⟨rainBandsLoop_state, ?_⟩
  intro g s s' N h1 h2 h3 h4
  induction N generalizing g with
  | zero => rfl
  | succ n ih =>
    show ((g.generate_sample s).2).tickN s n
      = ((g.generate_sample s').2).tickN s' n
    rw [rainNextState g s h1 h3, rainNextState g s' h2 h4]
    exact ih _

/-- Claim C10 witness: two ticks under all-ones gains at full volume and
under all-zero gains at half volume with normalization on leave a
concrete generator in the same state. -/
theorem C10_witness :
    testGenerator.tickN rainSettingsA 2 = testGenerator.tickN rainSettingsB 2 :=
  C10_rain_state_gain_independent.2 testGenerator rainSettingsA rainSettingsB 2
    rfl rfl (by norm_num [rainSettingsA]) (by norm_num [rainSettingsB])

lemma idFilter_process_fst (x : ℝ) : (idFilter.process x).1 = x := by
  simp only [BiquadFilter.process, idFilter]
  norm_num

lemma testRainPlayer_value : (testRainPlayer.generate_sample).1 = 1 := by
  unfold RainSamplePlayer.generate_sample RainSamplePlayer.currentValue
    RainSamplePlayer.get_sample_interpolated testRainPlayer
  norm_num

lemma rainBandsLoop_cons (f : BiquadFilter) (fs : List BiquadFilter)
    (gains cfs : List ℚ) (p : Bool) (rain : ℝ) :
    rainBandsLoop (f :: fs) gains cfs p rain =
      if gains.headD 0 ≤ 0.001 then
        ((rainBandsLoop fs gains.tail cfs.tail p rain).1,
          (f.process rain).2 :: (rainBandsLoop fs gains.tail cfs.tail p rain).2)
      else
        ((f.process rain).1 * (gains.headD 0 : ℝ)
            * (perceptualGain p (cfs.headD 0) : ℝ) * 0.8
            + (rainBandsLoop fs gains.tail cfs.tail p rain).1,
          (f.process rain).2 :: (rainBandsLoop fs gains.tail cfs.tail p rain).2) := by
  rfl

/-- Per-band contribution of the Rain EQ loop (main.rs lines 428-455),
factored out of `rainBandsLoop`. -/
def rainBandContribution (f : BiquadFilter) (gain cf : ℚ) (p : Bool)
    (rain : ℝ) : ℝ :=
  if gain ≤ 0.001 then 0
  else (f.process rain).1 * (gain : ℝ) * (perceptualGain p cf : ℝ) * 0.8

/-- Claim C1 (amended): in Rain style with nonzero volume the output is
the soft-limited, volume-scaled sum of ALL eight bands' contributions,
where every band — whatever its center frequency — contributes
filtered * gain * perceptual * 0.8 when its own gain exceeds 0.001 and 0
otherwise: gain IS consulted for every band, and any band can be
nonzero. -/
theorem C1_all_bands_contribute :
    (∀ (g : NoiseGenerator) (s : AudioSettings),
      s.volume ≠ 0 → s.sound_style = .Rain →
      (g.generate_sample s).1 = softLimit
        ((rainBandsLoop g.rain_filters s.frequency_bands
          g.center_frequencies s.perceptual_normalization
          (g.rain_player.generate_sample).1).1 * (s.volume : ℝ))) ∧
    (∀ (f : BiquadFilter) (fs : List BiquadFilter) (gains cfs : List ℚ)
      (p : Bool) (rain : ℝ),
      (rainBandsLoop (f :: fs) gains cfs p rain).1 =
        rainBandContribution f (gains.headD 0) (cfs.headD 0) p rain
          + (rainBandsLoop fs gains.tail cfs.tail p rain).1) := by
  constructor
  · intro g s hv hstyle
    unfold NoiseGenerator.generate_sample
    rw [if_neg hv, hstyle]
  · intro f fs gains cfs p rain
    by_cases hgain : gains.headD 0 ≤ 0.001
    · simp only [rainBandsLoop_cons, rainBandContribution, if_pos hgain]
      ring
    · simp only [rainBandsLoop_cons, rainBandContribution, if_neg hgain]

/-- Claim C1 witness: the Rain-branch equation instantiated at a
concrete generator and concrete rain settings. -/
theorem C1_witness :
    (testGenerator.generate_sample rainSettingsA).1 = softLimit
      ((rainBandsLoop testGenerator.rain_filters rainSettingsA.frequency_bands
        testGenerator.center_frequencies rainSettingsA.perceptual_normalization
        (testGenerator.rain_player.generate_sample).1).1
        * (rainSettingsA.volume : ℝ)) :=
  C1_all_bands_contribute.1 testGenerator rainSettingsA
    (by norm_num [rainSettingsA]) rfl

/-- Claim C1 counterexample: Rain style with the Mid band (index 3, the
only band whose center frequency lies in [500, 2000)) at gain 0 and all
seven other bands at gain 1 produces the nonzero output 0.56 at a
concrete engine state — the seven non-Mid bands all contribute, and
their gains are consulted; under the claim the output would have to be
0. -/
theorem C1_counterexample :
    rainSettingsMidOff.sound_style = .Rain ∧
    rainSettingsMidOff.frequency_bands = [1, 1, 1, 0, 1, 1, 1, 1] ∧
    (testGenerator.generate_sample rainSettingsMidOff).1 = 0.56 ∧
    ((0.56 : ℝ) ≠ 0) := by
  refine ⟨rfl, rfl, ?_, by norm_num⟩
  have hrain : (testGenerator.rain_player.generate_sample).1 = 1 :=
    testRainPlayer_value
  rw [C1_all_bands_contribute.1 testGenerator rainSettingsMidOff
    (by norm_num [rainSettingsMidOff]) rfl, hrain]
  norm_num [rainSettingsMidOff, testGenerator, rainBandsLoop,
    idFilter_process_fst, perceptualGain, softLimit]

/-- Claim C2 counterexample: the rain source is not a stochastic layer
synthesizer — it is deterministic playback of the decoded bundled WAV
recording (main.rs line 198, `include_bytes!("../assets/rain_loop.wav")`).
Its state holds no RNG and its tick takes no random draw; at a concrete
player built from decoded 16-bit PCM values [16384, -16384, 0] the first
emitted sample is exactly the recording's first decoded sample
16384/32768 = 1/2, and the decoded buffer persists unchanged. -/
theorem C2_counterexample :
    ((RainSamplePlayer.new16 [16384, -16384, 0] 1 1).generate_sample).1
      = (((16384 : ℚ) / 32768 : ℚ) : ℝ) ∧
    (((RainSamplePlayer.new16 [16384, -16384, 0] 1 1).generate_sample).2).samples
      = (RainSamplePlayer.new16 [16384, -16384, 0] 1 1).samples ∧
    (((16384 : ℚ) / 32768 : ℚ) : ℝ) = 1/2 := by
  refine ⟨?_, ?_, by norm_num⟩
  · unfold RainSamplePlayer.new16 RainSamplePlayer.generate_sample
      RainSamplePlayer.currentValue RainSamplePlayer.get_sample_interpolated
    norm_num
  · unfold RainSamplePlayer.new16 RainSamplePlayer.generate_sample
      RainSamplePlayer.advance
    norm_num

/-- Claim C2 (amended): one call of the rain source emits one sample and
only moves the playback position — the decoded sample buffer and the
rate/crossfade configuration are immutable, no randomness is consumed
(the player state carries none), and away from the crossfade zone the
emitted value is exactly the interpolated lookup of the decoded
recording at the current position. -/
theorem C2_recording_playback (p : RainSamplePlayer) :
    ((p.generate_sample).2).samples = p.samples ∧
    ((p.generate_sample).2).source_sample_rate = p.source_sample_rate ∧
    ((p.generate_sample).2).target_sample_rate = p.target_sample_rate ∧
    ((p.generate_sample).2).crossfade_samples = p.crossfade_samples ∧
    ((⌊p.resample_position⌋).toNat < p.samples.length - p.crossfade_samples →
      (p.generate_sample).1 = p.get_sample_interpolated p.resample_position) := by
  unfold RainSamplePlayer.generate_sample
  by_cases hemp : p.samples.length = 0
  · rw [if_pos hemp]
    refine ⟨rfl, rfl, rfl, rfl, ?_⟩
    intro _
    unfold RainSamplePlayer.get_sample_interpolated
    rw [if_pos hemp]
  · rw [if_neg hemp]
    refine ⟨?_, ?_, ?_, ?_, ?_⟩
    · unfold RainSamplePlayer.advance
      rw [if_neg hemp]
    · unfold RainSamplePlayer.advance
      rw [if_neg hemp]
    · unfold RainSamplePlayer.advance
      rw [if_neg hemp]
    · unfold RainSamplePlayer.advance
      rw [if_neg hemp]
    · intro h
      unfold RainSamplePlayer.currentValue
      rw [if_neg hemp, if_neg (not_le.mpr h)]

/-- Claim C2 witness: a concrete player outside the crossfade zone emits
the interpolated recording sample and keeps its buffer. -/
theorem C2_witness :
    ((RainSamplePlayer.mk [1/2, 1/3] 44100 48000 0 0).generate_sample).2.samples
      = [1/2, 1/3] ∧
    ((RainSamplePlayer.mk [1/2, 1/3] 44100 48000 0 0).generate_sample).1
      = (RainSamplePlayer.mk [1/2, 1/3] 44100 48000 0 0).get_sample_interpolated 0 := by
  have h := C2_recording_playback (RainSamplePlayer.mk [1/2, 1/3] 44100 48000 0 0)
  exact ⟨h.1, h.2.2.2.2 (by norm_num)⟩
